import Mathlib

-- Shallow embedding of esphome/components/ds3231/ds3231.cpp (the DS3231
-- real-time-clock driver).  The companion header ds3231.h (register bitfield
-- unions and the enum types) is not part of src/, so its data layout is
-- modelled from the spec: register groups become Lean structures whose fields
-- carry the names the .cpp uses, one-bit flag fields become Bool, and multi-bit
-- BCD digit fields become Nat.  The i2c bus transport and the esphome host
-- clock are external collaborators and are modelled from the spec as well: the
-- hardware is a second register image that reads copy from and writes copy to,
-- and every attempted bus transaction (address, length, direction) is recorded
-- in a trace.

namespace DS3231

-- Register addresses, ds3231.cpp lines 13-17.

def DS3231_RTC_ADDRESS : Nat := 0x00

def DS3231_ALARM_1_ADDRESS : Nat := 0x07

def DS3231_ALARM_2_ADDRESS : Nat := 0x0B

def DS3231_CONTROL_ADDRESS : Nat := 0x0E

def DS3231_STATUS_ADDRESS : Nat := 0x0F

-- Alarm type bit masks, ds3231.cpp lines 20-26.

def DS3231_ALARM_TYPE_M1 : Nat := 0x01

def DS3231_ALARM_TYPE_M2 : Nat := 0x02

def DS3231_ALARM_TYPE_M3 : Nat := 0x04

def DS3231_ALARM_TYPE_M4 : Nat := 0x08

def DS3231_ALARM_TYPE_DAY_MODE : Nat := 0x10

def DS3231_ALARM_TYPE_INTERUPT : Nat := 0x40

def DS3231_ALARM_TYPE_ALARM_NUMBER : Nat := 0x80

/-- Conversion of a C++ integer to bool (used where the source assigns a
masked bitfield such as `alarm_type & DS3231_ALARM_TYPE_M2` to a flag):
nonzero becomes true. -/
def cppBool (v : Nat) : Bool := v != 0

/-- Modelled from the spec: the rtc (time) register group of ds3231.h, 7
bytes, each calendar field split into a BCD units digit and a tens digit. -/
structure RtcReg where
  second : Nat
  second_10 : Nat
  minute : Nat
  minute_10 : Nat
  hour : Nat
  hour_10 : Nat
  weekday : Nat
  day : Nat
  day_10 : Nat
  month : Nat
  month_10 : Nat
  year : Nat
  year_10 : Nat
deriving DecidableEq

/-- Modelled from the spec: the alarm-1 register group of ds3231.h, 4 bytes:
seconds/minutes/hours/day BCD fields, match flags m1-m4, day-mode flag. -/
structure Alrm1Reg where
  second : Nat
  second_10 : Nat
  m1 : Bool
  minute : Nat
  minute_10 : Nat
  m2 : Bool
  hour : Nat
  hour_10 : Nat
  m3 : Bool
  day : Nat
  day_10 : Nat
  day_mode : Bool
  m4 : Bool
deriving DecidableEq

/-- Modelled from the spec: the alarm-2 register group of ds3231.h, 3 bytes:
minutes/hours/day BCD fields, match flags m2-m4, day-mode flag (no seconds). -/
structure Alrm2Reg where
  minute : Nat
  minute_10 : Nat
  m2 : Bool
  hour : Nat
  hour_10 : Nat
  m3 : Bool
  day : Nat
  day_10 : Nat
  day_mode : Bool
  m4 : Bool
deriving DecidableEq

/-- Modelled from the spec: the control register of ds3231.h, 1 byte.  `rs` is
the 2-bit square-wave-rate field; the rest are one-bit flags. -/
structure CtrlReg where
  alrm_1_int : Bool
  alrm_2_int : Bool
  int_ctrl : Bool
  rs : Nat
  conv_tmp : Bool
  bat_sqw : Bool
  osc_dis : Bool
deriving DecidableEq

/-- Modelled from the spec: the status register of ds3231.h, 1 byte. -/
structure StatReg where
  alrm_1_act : Bool
  alrm_2_act : Bool
  busy : Bool
  en32khz : Bool
  osc_stop : Bool
deriving DecidableEq

/-- The five mirrored register groups (the `ds3231_` member of the driver). -/
structure DS3231Reg where
  rtc : RtcReg
  alrm_1 : Alrm1Reg
  alrm_2 : Alrm2Reg
  ctrl : CtrlReg
  stat : StatReg
deriving DecidableEq

/-- Direction of a bus transaction. -/
inductive BusDir where
  | read
  | write
deriving DecidableEq

/-- One attempted i2c transaction: direction, register address, byte count
(the arguments the driver passes to read_bytes / write_bytes). -/
structure BusTxn where
  dir : BusDir
  address : Nat
  length : Nat
deriving DecidableEq

/-- Modelled from the spec: the esphome core calendar-time value (time::ESPTime)
used by the host clock; its declaration is outside this component. -/
structure ESPTime where
  second : Nat
  minute : Nat
  hour : Nat
  day_of_week : Nat
  day_of_month : Nat
  day_of_year : Nat
  month : Nat
  year : Nat
deriving DecidableEq

/-- Modelled from the spec: per-transaction bus reliability — whether each
register-group read / write transaction succeeds on the wire. -/
structure BusOk where
  rtcR : Bool
  rtcW : Bool
  a1R : Bool
  a1W : Bool
  a2R : Bool
  a2W : Bool
  ctrlR : Bool
  ctrlW : Bool
  statR : Bool
  statW : Bool
deriving DecidableEq

/-- Whole-system state: the hardware chip's registers `hw`, the driver's
in-memory mirror `img` (`ds3231_`), the trace of attempted bus transactions,
the component-failed flag, and the list of decoded times handed to the host
clock (time::RealTimeClock::synchronize_epoch_, modelled from the spec as
recording the decoded time whose timestamp is passed). -/
structure Machine where
  hw : DS3231Reg
  img : DS3231Reg
  trace : List BusTxn
  failed : Bool
  synced : List ESPTime
deriving DecidableEq

-- Register access layer, ds3231.cpp lines 182-328.  Each procedure attempts
-- one bus transaction (recorded in the trace whether or not the wire
-- transfer succeeds); a successful read copies the hardware group into the
-- mirror, a successful write copies the mirror group to the hardware; a
-- failed transfer leaves both images unchanged and returns false.

/-- read_rtc_: one 7-byte read of the time group at DS3231_RTC_ADDRESS. -/
def read_rtc_ (ok : BusOk) (m : Machine) : Bool × Machine :=
  let m := { m with trace := m.trace ++ [⟨BusDir.read, DS3231_RTC_ADDRESS, 7⟩] }
  if ok.rtcR then (true, { m with img := { m.img with rtc := m.hw.rtc } })
  else (false, m)

/-- write_rtc_: one 7-byte write of the time group at DS3231_RTC_ADDRESS. -/
def write_rtc_ (ok : BusOk) (m : Machine) : Bool × Machine :=
  let m := { m with trace := m.trace ++ [⟨BusDir.write, DS3231_RTC_ADDRESS, 7⟩] }
  if ok.rtcW then (true, { m with hw := { m.hw with rtc := m.img.rtc } })
  else (false, m)

/-- read_alrm_1_: one 4-byte read at DS3231_ALARM_1_ADDRESS. -/
def read_alrm_1_ (ok : BusOk) (m : Machine) : Bool × Machine :=
  let m := { m with trace := m.trace ++ [⟨BusDir.read, DS3231_ALARM_1_ADDRESS, 4⟩] }
  if ok.a1R then (true, { m with img := { m.img with alrm_1 := m.hw.alrm_1 } })
  else (false, m)

/-- write_alrm_1_: one 4-byte write at DS3231_ALARM_1_ADDRESS. -/
def write_alrm_1_ (ok : BusOk) (m : Machine) : Bool × Machine :=
  let m := { m with trace := m.trace ++ [⟨BusDir.write, DS3231_ALARM_1_ADDRESS, 4⟩] }
  if ok.a1W then (true, { m with hw := { m.hw with alrm_1 := m.img.alrm_1 } })
  else (false, m)

/-- read_alrm_2_: one 3-byte read of the alarm-2 mirror.  The source
(ds3231.cpp line 243) passes DS3231_ALARM_1_ADDRESS, not
DS3231_ALARM_2_ADDRESS, as the register address.  The byte-level aliasing
this causes on the real chip is outside this structured-register model; the
transaction's address is recorded faithfully. -/
def read_alrm_2_ (ok : BusOk) (m : Machine) : Bool × Machine :=
  let m := { m with trace := m.trace ++ [⟨BusDir.read, DS3231_ALARM_1_ADDRESS, 3⟩] }
  if ok.a2R then (true, { m with img := { m.img with alrm_2 := m.hw.alrm_2 } })
  else (false, m)

/-- write_alrm_2_: one 3-byte write of the alarm-2 mirror.  The source
(ds3231.cpp line 257) passes DS3231_ALARM_1_ADDRESS as the register
address. -/
def write_alrm_2_ (ok : BusOk) (m : Machine) : Bool × Machine :=
  let m := { m with trace := m.trace ++ [⟨BusDir.write, DS3231_ALARM_1_ADDRESS, 3⟩] }
  if ok.a2W then (true, { m with hw := { m.hw with alrm_2 := m.img.alrm_2 } })
  else (false, m)

/-- read_ctrl_: one 1-byte read at DS3231_CONTROL_ADDRESS. -/
def read_ctrl_ (ok : BusOk) (m : Machine) : Bool × Machine :=
  let m := { m with trace := m.trace ++ [⟨BusDir.read, DS3231_CONTROL_ADDRESS, 1⟩] }
  if ok.ctrlR then (true, { m with img := { m.img with ctrl := m.hw.ctrl } })
  else (false, m)

/-- write_ctrl_: one 1-byte write at DS3231_CONTROL_ADDRESS. -/
def write_ctrl_ (ok : BusOk) (m : Machine) : Bool × Machine :=
  let m := { m with trace := m.trace ++ [⟨BusDir.write, DS3231_CONTROL_ADDRESS, 1⟩] }
  if ok.ctrlW then (true, { m with hw := { m.hw with ctrl := m.img.ctrl } })
  else (false, m)

/-- read_stat_: one 1-byte read at DS3231_STATUS_ADDRESS. -/
def read_stat_ (ok : BusOk) (m : Machine) : Bool × Machine :=
  let m := { m with trace := m.trace ++ [⟨BusDir.read, DS3231_STATUS_ADDRESS, 1⟩] }
  if ok.statR then (true, { m with img := { m.img with stat := m.hw.stat } })
  else (false, m)

/-- write_stat_: one 1-byte write at DS3231_STATUS_ADDRESS. -/
def write_stat_ (ok : BusOk) (m : Machine) : Bool × Machine :=
  let m := { m with trace := m.trace ++ [⟨BusDir.write, DS3231_STATUS_ADDRESS, 1⟩] }
  if ok.statW then (true, { m with hw := { m.hw with stat := m.img.stat } })
  else (false, m)

-- Driver operations, ds3231.cpp lines 28-180.

/-- setup (ds3231.cpp lines 28-45): read every register group once; any
failed read marks the component failed (mark_failed sets the flag, nothing
clears it). -/
def setup (ok : BusOk) (m : Machine) : Machine :=
  let p := read_rtc_ ok m
  let m := if p.1 = false then { p.2 with failed := true } else p.2
  let p := read_alrm_1_ ok m
  let m := if p.1 = false then { p.2 with failed := true } else p.2
  let p := read_alrm_2_ ok m
  let m := if p.1 = false then { p.2 with failed := true } else p.2
  let p := read_ctrl_ ok m
  let m := if p.1 = false then { p.2 with failed := true } else p.2
  let p := read_stat_ ok m
  if p.1 = false then { p.2 with failed := true } else p.2

/-- Decoding of the rtc mirror into time::ESPTime, ds3231.cpp lines 71-78.
Each field is built as units + 10 * tens and cast to uint8_t (so reduced mod
2^8); the year adds 2000 inside a uint16_t cast. -/
def decode_rtc_time (r : RtcReg) : ESPTime :=
  { second := (r.second + 10 * r.second_10) % 2 ^ 8
    minute := (r.minute + 10 * r.minute_10) % 2 ^ 8
    hour := (r.hour + 10 * r.hour_10) % 2 ^ 8
    day_of_week := r.weekday % 2 ^ 8
    day_of_month := (r.day + 10 * r.day_10) % 2 ^ 8
    day_of_year := 1
    month := (r.month + 10 * r.month_10) % 2 ^ 8
    year := (r.year + 10 * r.year_10 + 2000) % 2 ^ 16 }

/-- Modelled from the spec: number of days in a month (for the impossible-date
check of the host time validation). -/
def daysInMonth (month year : Nat) : Nat :=
  if month = 2 then
    if year % 4 = 0 ∧ (year % 100 ≠ 0 ∨ year % 400 = 0) then 29 else 28
  else if month = 4 ∨ month = 6 ∨ month = 9 ∨ month = 11 then 30
  else 31

/-- Modelled from the spec: the esphome core validation performed after
recalc_timestamp_utc — a decoded time is valid when every field is in range
and the date is possible (it rejects an out-of-range field / impossible
date). -/
def ESPTime.is_valid (t : ESPTime) : Bool :=
  t.second ≤ 59 && t.minute ≤ 59 && t.hour ≤ 23 &&
  1 ≤ t.month && t.month ≤ 12 &&
  1 ≤ t.day_of_month && t.day_of_month ≤ daysInMonth t.month t.year &&
  2000 ≤ t.year

/-- read_time (ds3231.cpp lines 60-85): read status; abandon on bus failure;
skip (warning only) when the oscillator-stopped flag is set; read the time
group, abandon on bus failure; decode; hand the decoded time to the host
clock only when it validates. -/
def read_time (ok : BusOk) (m : Machine) : Machine :=
  let p := read_stat_ ok m
  if p.1 = false then p.2
  else if p.2.img.stat.osc_stop = true then p.2
  else
    let q := read_rtc_ ok p.2
    if q.1 = false then q.2
    else
      let rtc_time := decode_rtc_time q.2.img.rtc
      if rtc_time.is_valid = false then q.2
      else { q.2 with synced := q.2.synced ++ [rtc_time] }

/-- Encoding of the host time into the rtc mirror, ds3231.cpp lines 98-110.
The year is stored as the offset from 2000 (the source computes now.year -
2000 in signed int arithmetic; years at or after 2000, the intended domain,
are translated exactly). -/
def encode_rtc_time (now : ESPTime) (r : RtcReg) : RtcReg :=
  { r with
    second := now.second % 10
    second_10 := now.second / 10
    minute := now.minute % 10
    minute_10 := now.minute / 10
    hour := now.hour % 10
    hour_10 := now.hour / 10
    weekday := now.day_of_week
    day := now.day_of_month % 10
    day_10 := now.day_of_month / 10
    month := now.month % 10
    month_10 := now.month / 10
    year := (now.year - 2000) % 10
    year_10 := (now.year - 2000) / 10 % 10 }

/-- write_time (ds3231.cpp lines 87-112): abort before any bus transaction
when the host clock's time is not valid (nowValid models now.is_valid(), the
validity flag the host clock carries); read status (result unchecked in the
source); clear the oscillator-stopped flag, writing status, when it is set;
encode the host time into the rtc mirror and write the time group. -/
def write_time (ok : BusOk) (now : ESPTime) (nowValid : Bool) (m : Machine) : Machine :=
  if nowValid = false then m
  else
    let m := (read_stat_ ok m).2
    let m :=
      if m.img.stat.osc_stop = true then
        let m := { m with img := { m.img with stat := { m.img.stat with osc_stop := false } } }
        (write_stat_ ok m).2
      else m
    let m := { m with img := { m.img with rtc := encode_rtc_time now m.img.rtc } }
    (write_rtc_ ok m).2

/-- set_alarm (ds3231.cpp lines 114-157): read control (result unchecked),
then for the slot selected by the ALARM_NUMBER bit: read that alarm group
(result unchecked), overwrite its fields from the arguments (alarm 2 has no
seconds), write the alarm group unconditionally, and write control only when
the slot's interrupt-enable bit differs from the requested one. -/
def set_alarm (ok : BusOk) (alarm_type second minute hour day : Nat) (m : Machine) : Machine :=
  let m := (read_ctrl_ ok m).2
  if alarm_type &&& DS3231_ALARM_TYPE_ALARM_NUMBER = 0 then
    let m := (read_alrm_1_ ok m).2
    let a := { m.img.alrm_1 with
      second := second % 10
      second_10 := second / 10
      m1 := cppBool (alarm_type &&& DS3231_ALARM_TYPE_M1)
      minute := minute % 10
      minute_10 := minute / 10
      m2 := cppBool (alarm_type &&& DS3231_ALARM_TYPE_M2)
      hour := hour % 10
      hour_10 := hour / 10
      m3 := cppBool (alarm_type &&& DS3231_ALARM_TYPE_M3)
      day := day % 10
      day_10 := day / 10
      day_mode := cppBool (alarm_type &&& DS3231_ALARM_TYPE_DAY_MODE)
      m4 := cppBool (alarm_type &&& DS3231_ALARM_TYPE_M4) }
    let m := { m with img := { m.img with alrm_1 := a } }
    let m := (write_alrm_1_ ok m).2
    if m.img.ctrl.alrm_1_int ≠ cppBool (alarm_type &&& DS3231_ALARM_TYPE_INTERUPT) then
      let m := { m with img := { m.img with ctrl :=
        { m.img.ctrl with alrm_1_int := cppBool (alarm_type &&& DS3231_ALARM_TYPE_INTERUPT) } } }
      (write_ctrl_ ok m).2
    else m
  else
    let m := (read_alrm_2_ ok m).2
    let a := { m.img.alrm_2 with
      minute := minute % 10
      minute_10 := minute / 10
      m2 := cppBool (alarm_type &&& DS3231_ALARM_TYPE_M2)
      hour := hour % 10
      hour_10 := hour / 10
      m3 := cppBool (alarm_type &&& DS3231_ALARM_TYPE_M3)
      day := day % 10
      day_10 := day / 10
      day_mode := cppBool (alarm_type &&& DS3231_ALARM_TYPE_DAY_MODE)
      m4 := cppBool (alarm_type &&& DS3231_ALARM_TYPE_M4) }
    let m := { m with img := { m.img with alrm_2 := a } }
    let m := (write_alrm_2_ ok m).2
    if m.img.ctrl.alrm_2_int ≠ cppBool (alarm_type &&& DS3231_ALARM_TYPE_INTERUPT) then
      let m := { m with img := { m.img with ctrl :=
        { m.img.ctrl with alrm_2_int := cppBool (alarm_type &&& DS3231_ALARM_TYPE_INTERUPT) } } }
      (write_ctrl_ ok m).2
    else m

/-- Modelled from the spec: DS3231SquareWaveMode (declared in the absent
ds3231.h) — alarm-interrupt mode or one of the four square-wave rates. -/
inductive DS3231SquareWaveMode where
  | FREQUENCY_1_HZ
  | FREQUENCY_1024_HZ
  | FREQUENCY_4096_HZ
  | FREQUENCY_8192_HZ
  | ALARM_INTERUPT
deriving DecidableEq

/-- Modelled from the spec: the enum's numeric values — the four rates carry
the 2-bit register encodings 0-3 in frequency order, and ALARM_INTERUPT a
distinct value outside the rate range. -/
def DS3231SquareWaveMode.val : DS3231SquareWaveMode → Nat
  | .FREQUENCY_1_HZ => 0
  | .FREQUENCY_1024_HZ => 1
  | .FREQUENCY_4096_HZ => 2
  | .FREQUENCY_8192_HZ => 3
  | .ALARM_INTERUPT => 4

/-- set_sqw_mode (ds3231.cpp lines 159-170): read control (result unchecked);
if the mode is ALARM_INTERUPT and the interrupt-select bit is clear, set it
and write control; otherwise, if the interrupt-select bit is set or the rate
field differs from the mode's value, clear the bit, store the mode into the
2-bit rate field, and write control.  No branch taken means no write. -/
def set_sqw_mode (ok : BusOk) (mode : DS3231SquareWaveMode) (m : Machine) : Machine :=
  let m := (read_ctrl_ ok m).2
  if mode = .ALARM_INTERUPT ∧ m.img.ctrl.int_ctrl = false then
    let m := { m with img := { m.img with ctrl := { m.img.ctrl with int_ctrl := true } } }
    (write_ctrl_ ok m).2
  else if m.img.ctrl.int_ctrl = true ∨ m.img.ctrl.rs ≠ mode.val then
    let m := { m with img := { m.img with ctrl :=
      { m.img.ctrl with int_ctrl := false, rs := mode.val % 4 } } }
    (write_ctrl_ ok m).2
  else m

/-- Modelled from the spec: DS3231AlarmNumber (declared in the absent
ds3231.h) — which of the two alarm slots to act on. -/
inductive DS3231AlarmNumber where
  | ALARM_1
  | ALARM_2
deriving DecidableEq

/-- reset_alarm (ds3231.cpp lines 172-180): read status (result unchecked),
clear the selected alarm's active flag only when it is set, and write status
back unconditionally. -/
def reset_alarm (ok : BusOk) (alarm_number : DS3231AlarmNumber) (m : Machine) : Machine :=
  let m := (read_stat_ ok m).2
  let m :=
    if alarm_number = .ALARM_1 ∧ m.img.stat.alrm_1_act = true then
      { m with img := { m.img with stat := { m.img.stat with alrm_1_act := false } } }
    else if alarm_number = .ALARM_2 ∧ m.img.stat.alrm_2_act = true then
      { m with img := { m.img with stat := { m.img.stat with alrm_2_act := false } } }
    else m
  (write_stat_ ok m).2

-- Concrete sample states used by witnesses and counterexamples.

/-- All-zero time register group. -/
def rtc0 : RtcReg := ⟨0, 0, 0, 0, 0, 0, 0, 0, 0, 0, 0, 0, 0⟩

/-- All-zero alarm-1 register group. -/
def alrm1z : Alrm1Reg := ⟨0, 0, false, 0, 0, false, 0, 0, false, 0, 0, false, false⟩

/-- All-zero alarm-2 register group. -/
def alrm2z : Alrm2Reg := ⟨0, 0, false, 0, 0, false, 0, 0, false, false⟩

/-- All-clear control register. -/
def ctrl0 : CtrlReg := ⟨false, false, false, 0, false, false, false⟩

/-- All-clear status register. -/
def stat0 : StatReg := ⟨false, false, false, false, false⟩

/-- Register image with every group cleared. -/
def reg0 : DS3231Reg := ⟨rtc0, alrm1z, alrm2z, ctrl0, stat0⟩

/-- Initial machine: cleared hardware and mirror, empty trace, not failed,
nothing synchronized. -/
def m0 : Machine := ⟨reg0, reg0, [], false, []⟩

/-- Fully reliable bus: every transaction succeeds. -/
def okAll : BusOk := ⟨true, true, true, true, true, true, true, true, true, true⟩

/-- Number of control-register write transactions in a trace. -/
def ctrlWrites (tr : List BusTxn) : Nat :=
  (tr.filter fun t => t = ⟨BusDir.write, DS3231_CONTROL_ADDRESS, 1⟩).length

-- Helper lemmas about the access layer (read success copies the hardware
-- group into the mirror; the trace and the mirror are unaffected by whether a
-- write transfer succeeds on the wire).

theorem read_stat_true (ok : BusOk) (m : Machine) (h : ok.statR = true) :
    read_stat_ ok m =
      (true, { m with trace := m.trace ++ [⟨BusDir.read, DS3231_STATUS_ADDRESS, 1⟩],
                      img := { m.img with stat := m.hw.stat } }) := by
  simp [read_stat_, h]

theorem read_ctrl_true (ok : BusOk) (m : Machine) (h : ok.ctrlR = true) :
    read_ctrl_ ok m =
      (true, { m with trace := m.trace ++ [⟨BusDir.read, DS3231_CONTROL_ADDRESS, 1⟩],
                      img := { m.img with ctrl := m.hw.ctrl } }) := by
  simp [read_ctrl_, h]

theorem read_rtc_true (ok : BusOk) (m : Machine) (h : ok.rtcR = true) :
    read_rtc_ ok m =
      (true, { m with trace := m.trace ++ [⟨BusDir.read, DS3231_RTC_ADDRESS, 7⟩],
                      img := { m.img with rtc := m.hw.rtc } }) := by
  simp [read_rtc_, h]

theorem read_alrm_1_true (ok : BusOk) (m : Machine) (h : ok.a1R = true) :
    read_alrm_1_ ok m =
      (true, { m with trace := m.trace ++ [⟨BusDir.read, DS3231_ALARM_1_ADDRESS, 4⟩],
                      img := { m.img with alrm_1 := m.hw.alrm_1 } }) := by
  simp [read_alrm_1_, h]

theorem read_alrm_2_true (ok : BusOk) (m : Machine) (h : ok.a2R = true) :
    read_alrm_2_ ok m =
      (true, { m with trace := m.trace ++ [⟨BusDir.read, DS3231_ALARM_1_ADDRESS, 3⟩],
                      img := { m.img with alrm_2 := m.hw.alrm_2 } }) := by
  simp [read_alrm_2_, h]

theorem write_stat_snd_trace (ok : BusOk) (m : Machine) :
    (write_stat_ ok m).2.trace = m.trace ++ [⟨BusDir.write, DS3231_STATUS_ADDRESS, 1⟩] := by
  unfold write_stat_; split <;> rfl

theorem write_stat_snd_img (ok : BusOk) (m : Machine) :
    (write_stat_ ok m).2.img = m.img := by
  unfold write_stat_; split <;> rfl

theorem write_ctrl_snd_trace (ok : BusOk) (m : Machine) :
    (write_ctrl_ ok m).2.trace = m.trace ++ [⟨BusDir.write, DS3231_CONTROL_ADDRESS, 1⟩] := by
  unfold write_ctrl_; split <;> rfl

theorem write_ctrl_snd_img (ok : BusOk) (m : Machine) :
    (write_ctrl_ ok m).2.img = m.img := by
  unfold write_ctrl_; split <;> rfl

theorem write_alrm_1_snd_trace (ok : BusOk) (m : Machine) :
    (write_alrm_1_ ok m).2.trace = m.trace ++ [⟨BusDir.write, DS3231_ALARM_1_ADDRESS, 4⟩] := by
  unfold write_alrm_1_; split <;> rfl

theorem write_alrm_1_snd_img (ok : BusOk) (m : Machine) :
    (write_alrm_1_ ok m).2.img = m.img := by
  unfold write_alrm_1_; split <;> rfl

theorem write_alrm_2_snd_trace (ok : BusOk) (m : Machine) :
    (write_alrm_2_ ok m).2.trace = m.trace ++ [⟨BusDir.write, DS3231_ALARM_1_ADDRESS, 3⟩] := by
  unfold write_alrm_2_; split <;> rfl

theorem write_alrm_2_snd_img (ok : BusOk) (m : Machine) :
    (write_alrm_2_ ok m).2.img = m.img := by
  unfold write_alrm_2_; split <;> rfl

theorem write_rtc_snd_trace (ok : BusOk) (m : Machine) :
    (write_rtc_ ok m).2.trace = m.trace ++ [⟨BusDir.write, DS3231_RTC_ADDRESS, 7⟩] := by
  unfold write_rtc_; split <;> rfl

/-- Claim C1: the read and the write performed by the alarm-2 access
procedures pass DS3231_ALARM_1_ADDRESS (0x07), not the declared
DS3231_ALARM_2_ADDRESS (0x0B), as the register address of their 3-byte
transaction, while the alarm-1 procedures use 0x07 with 4 bytes as the claim
says.  This evaluates the code at the failing input: every alarm-2
transaction targets 0x07, contradicting the claim's 0x0B. -/
theorem C1_alarm2_transactions_use_alarm1_address :
    (read_alrm_2_ okAll m0).2.trace = [⟨BusDir.read, 0x07, 3⟩]
    ∧ (write_alrm_2_ okAll m0).2.trace = [⟨BusDir.write, 0x07, 3⟩]
    ∧ (read_alrm_1_ okAll m0).2.trace = [⟨BusDir.read, 0x07, 4⟩]
    ∧ (write_alrm_1_ okAll m0).2.trace = [⟨BusDir.write, 0x07, 4⟩]
    ∧ DS3231_ALARM_2_ADDRESS = 0x0B ∧ (0x07 : Nat) ≠ 0x0B := by
  decide

/-- Claim C2: calling set_sqw_mode twice with ALARM_INTERUPT from a cleared
control register issues two control-register writes (the second call takes
the else-branch because the interrupt-select bit is now set, writes again,
and clears the bit), contradicting the claim that the second identical call
issues zero writes.  For a square-wave rate the second call does issue zero
writes (last conjunct). -/
theorem C2_sqw_alarm_interupt_twice_writes_twice :
    ctrlWrites (set_sqw_mode okAll .ALARM_INTERUPT m0).trace = 1
    ∧ ctrlWrites (set_sqw_mode okAll .ALARM_INTERUPT
        (set_sqw_mode okAll .ALARM_INTERUPT m0)).trace = 2
    ∧ (set_sqw_mode okAll .ALARM_INTERUPT
        (set_sqw_mode okAll .ALARM_INTERUPT m0)).hw.ctrl.int_ctrl = false
    ∧ ctrlWrites (set_sqw_mode okAll .FREQUENCY_1024_HZ
        (set_sqw_mode okAll .FREQUENCY_1024_HZ m0)).trace = 1 := by
  decide

/-- Claim C3 counterexample: with the status-register read failing on the
wire, reset_alarm is not abandoned — it still performs its status-register
bus write, so a failed group read does not cause every non-setup operation
to skip its subsequent writes. -/
theorem C3_reset_alarm_writes_after_failed_read :
    (reset_alarm { okAll with statR := false } .ALARM_1 m0).trace =
      [⟨BusDir.read, DS3231_STATUS_ADDRESS, 1⟩, ⟨BusDir.write, DS3231_STATUS_ADDRESS, 1⟩] := by
  decide

/-- Claim C3 as amended: a failed group read aborts only the setup and
readTime paths — during setup any failed group read marks the whole
component failed, and in readTime a failed status read ends the operation
with the read as its only effect (a failed time read likewise prevents any
host-clock update) — while writeTime, setAlarm, setSquareWaveMode and
resetAlarm never check their group reads' results and proceed on the stale
mirror to their subsequent bus writes (resetAlarm still writes status,
writeTime still writes the time group, setAlarm still writes the alarm
group, setSquareWaveMode still writes control when the stale mirror calls
for it). -/
theorem C3_failed_reads_abort_only_setup_and_read_time (ok : BusOk)
    (n : DS3231AlarmNumber) (now : ESPTime) (sec mi hr dy : Nat) (m : Machine) :
    (setup { ok with rtcR := false } m).failed = true
    ∧ (setup { ok with a1R := false } m).failed = true
    ∧ (setup { ok with a2R := false } m).failed = true
    ∧ (setup { ok with ctrlR := false } m).failed = true
    ∧ (setup { ok with statR := false } m).failed = true
    ∧ read_time { ok with statR := false } m =
        { m with trace := m.trace ++ [⟨BusDir.read, DS3231_STATUS_ADDRESS, 1⟩] }
    ∧ (read_time { ok with statR := true, rtcR := false } m).synced = m.synced
    ∧ (⟨BusDir.write, DS3231_STATUS_ADDRESS, 1⟩ : BusTxn) ∈
        (reset_alarm { ok with statR := false } n m).trace
    ∧ (⟨BusDir.write, DS3231_RTC_ADDRESS, 7⟩ : BusTxn) ∈
        (write_time { ok with statR := false } now true m).trace
    ∧ (⟨BusDir.write, DS3231_ALARM_1_ADDRESS, 4⟩ : BusTxn) ∈
        (set_alarm { ok with ctrlR := false, a1R := false } 0 sec mi hr dy m).trace
    ∧ (⟨BusDir.write, DS3231_ALARM_1_ADDRESS, 3⟩ : BusTxn) ∈
        (set_alarm { ok with ctrlR := false, a2R := false }
          DS3231_ALARM_TYPE_ALARM_NUMBER sec mi hr dy m).trace
    ∧ (⟨BusDir.write, DS3231_CONTROL_ADDRESS, 1⟩ : BusTxn) ∈
        (set_sqw_mode { ok with ctrlR := false } .FREQUENCY_1_HZ
          { m with img := { m.img with ctrl := { m.img.ctrl with int_ctrl := true } } }).trace := by
  obtain ⟨r1, w1, a1r, a1w, a2r, a2w, cr, cw, sr, sw⟩ := ok
  refine ⟨?_, ?_, ?_, ?_, ?_, ?_, ?_, ?_, ?_, ?_, ?_, ?_⟩
  · cases a1r <;> cases a2r <;> cases cr <;> cases sr <;>
      simp [setup, read_rtc_, read_alrm_1_, read_alrm_2_, read_ctrl_, read_stat_]
  · cases r1 <;> cases a2r <;> cases cr <;> cases sr <;>
      simp [setup, read_rtc_, read_alrm_1_, read_alrm_2_, read_ctrl_, read_stat_]
  · cases r1 <;> cases a1r <;> cases cr <;> cases sr <;>
      simp [setup, read_rtc_, read_alrm_1_, read_alrm_2_, read_ctrl_, read_stat_]
  · cases r1 <;> cases a1r <;> cases a2r <;> cases sr <;>
      simp [setup, read_rtc_, read_alrm_1_, read_alrm_2_, read_ctrl_, read_stat_]
  · cases r1 <;> cases a1r <;> cases a2r <;> cases cr <;>
      simp [setup, read_rtc_, read_alrm_1_, read_alrm_2_, read_ctrl_, read_stat_]
  · simp [read_time, read_stat_]
  · cases r1 <;>
      simp [read_time, read_stat_, read_rtc_, decode_rtc_time] <;> split <;> simp
  · simp [reset_alarm, read_stat_, write_stat_snd_trace]
  · simp [write_time, read_stat_, write_rtc_snd_trace, write_stat_snd_trace]
  · simp [set_alarm, read_ctrl_, read_alrm_1_]
    split <;> simp [write_alrm_1_snd_trace, write_ctrl_snd_trace, write_alrm_1_snd_img]
  · simp [set_alarm, read_ctrl_, read_alrm_2_, DS3231_ALARM_TYPE_ALARM_NUMBER]
    split <;> simp [write_alrm_2_snd_trace, write_ctrl_snd_trace, write_alrm_2_snd_img]
  · simp [set_sqw_mode, read_ctrl_, write_ctrl_snd_trace]

/-- Claim C4: BCD round-trip — for every calendar field value in its valid
range (seconds and minutes 0-59, hours 0-23, day-of-month 1-31, month 1-12,
year offset 0-99, i.e. years 2000-2099), encoding the value into its BCD
units/tens pair (units = v % 10, tens = v / 10, write_time's encoding) and
decoding back (units + 10 * tens, read_time's decoding) yields the value
again. -/
theorem C4_bcd_roundtrip (t : ESPTime) (r : RtcReg)
    (hs : t.second ≤ 59) (hmi : t.minute ≤ 59) (hh : t.hour ≤ 23)
    (hd1 : 1 ≤ t.day_of_month) (hd : t.day_of_month ≤ 31)
    (hm1 : 1 ≤ t.month) (hm : t.month ≤ 12)
    (hy1 : 2000 ≤ t.year) (hy : t.year ≤ 2099) :
    (decode_rtc_time (encode_rtc_time t r)).second = t.second
    ∧ (decode_rtc_time (encode_rtc_time t r)).minute = t.minute
    ∧ (decode_rtc_time (encode_rtc_time t r)).hour = t.hour
    ∧ (decode_rtc_time (encode_rtc_time t r)).day_of_month = t.day_of_month
    ∧ (decode_rtc_time (encode_rtc_time t r)).month = t.month
    ∧ (decode_rtc_time (encode_rtc_time t r)).year = t.year := by
  refine ⟨?_, ?_, ?_, ?_, ?_, ?_⟩ <;> simp [decode_rtc_time, encode_rtc_time]
  · omega
  · omega
  · omega
  · omega
  · omega
  · have h1 : (t.year - 2000) / 10 % 10 = (t.year - 2000) / 10 :=
      Nat.mod_eq_of_lt (by omega)
    rw [h1]; omega

/-- Concrete calendar time used by the C4 witness: 08:15:30 on 2021-06-01. -/
def tEx : ESPTime := ⟨30, 15, 8, 5, 1, 1, 6, 2021⟩

/-- Witness for C4 at the concrete time tEx. -/
theorem C4_bcd_roundtrip_witness :
    (decode_rtc_time (encode_rtc_time tEx rtc0)).second = tEx.second
    ∧ (decode_rtc_time (encode_rtc_time tEx rtc0)).minute = tEx.minute
    ∧ (decode_rtc_time (encode_rtc_time tEx rtc0)).hour = tEx.hour
    ∧ (decode_rtc_time (encode_rtc_time tEx rtc0)).day_of_month = tEx.day_of_month
    ∧ (decode_rtc_time (encode_rtc_time tEx rtc0)).month = tEx.month
    ∧ (decode_rtc_time (encode_rtc_time tEx rtc0)).year = tEx.year :=
  C4_bcd_roundtrip tEx rtc0 (by decide) (by decide) (by decide) (by decide) (by decide)
    (by decide) (by decide) (by decide) (by decide)

/-- Claim C5: whenever the hardware status register's oscillator-stopped flag
is set, read_time never hands a time to the host clock; and (with the status
read succeeding) its only effects are the status-read transaction and the
refreshed status mirror — the warning log is outside the state. -/
theorem C5_osc_stop_blocks_sync (ok : BusOk) (m : Machine)
    (h : m.hw.stat.osc_stop = true) :
    (read_time ok m).synced = m.synced
    ∧ read_time { ok with statR := true } m =
        { m with trace := m.trace ++ [⟨BusDir.read, DS3231_STATUS_ADDRESS, 1⟩],
                 img := { m.img with stat := m.hw.stat } } := by
  constructor
  · cases hsr : ok.statR <;> simp [read_time, read_stat_, hsr, h]
  · simp [read_time, read_stat_, h]

/-- Machine whose hardware status register has the oscillator-stopped flag
set (used by the C5 witness). -/
def mOsc : Machine := { m0 with hw := { reg0 with stat := { stat0 with osc_stop := true } } }

/-- Witness for C5 at the concrete machine mOsc. -/
theorem C5_osc_stop_blocks_sync_witness :
    (read_time okAll mOsc).synced = mOsc.synced
    ∧ read_time { okAll with statR := true } mOsc =
        { mOsc with trace := mOsc.trace ++ [⟨BusDir.read, DS3231_STATUS_ADDRESS, 1⟩],
                    img := { mOsc.img with stat := mOsc.hw.stat } } :=
  C5_osc_stop_blocks_sync okAll mOsc rfl

/-- Claim C6: when the hardware time registers decode to a calendar time that
does not validate (an out-of-range field or impossible date), read_time does
not pass the decoded time to the host clock: the list of synchronized times
is unchanged. -/
theorem C6_invalid_decode_not_synced (ok : BusOk) (m : Machine)
    (h : ESPTime.is_valid (decode_rtc_time m.hw.rtc) = false) :
    (read_time ok m).synced = m.synced := by
  cases hsr : ok.statR
  · simp [read_time, read_stat_, hsr]
  · cases hosc : m.hw.stat.osc_stop
    · cases hr : ok.rtcR <;> simp [read_time, read_stat_, read_rtc_, hsr, hosc, hr, h]
    · simp [read_time, read_stat_, hsr, hosc]

/-- Witness for C6: the all-zero hardware time decodes to month 0 and day 0,
an impossible date, and is not synchronized. -/
theorem C6_invalid_decode_not_synced_witness :
    (read_time okAll m0).synced = m0.synced :=
  C6_invalid_decode_not_synced okAll m0 (by decide)

/-- Claim C7: when the host clock reports an invalid current time, write_time
aborts before any bus transaction — the machine (hardware, mirror, trace) is
returned unchanged. -/
theorem C7_invalid_host_time_no_bus (ok : BusOk) (now : ESPTime) (m : Machine) :
    write_time ok now false m = m := rfl

/-- Claim C8: for every alarm number and status-register state (with the
status read succeeding on the wire), reset_alarm issues exactly one
status-register bus write — even when the selected alarm's active flag was
already clear — and the status image it writes is the value just read with
only the selected alarm's active flag cleared (all other status bits
unchanged). -/
theorem C8_reset_alarm_always_writes_status (ok : BusOk) (n : DS3231AlarmNumber) (m : Machine) :
    (reset_alarm { ok with statR := true } n m).trace =
      m.trace ++ [⟨BusDir.read, DS3231_STATUS_ADDRESS, 1⟩,
        ⟨BusDir.write, DS3231_STATUS_ADDRESS, 1⟩]
    ∧ (reset_alarm { ok with statR := true } n m).img.stat =
        (match n with
          | .ALARM_1 => { m.hw.stat with alrm_1_act := false }
          | .ALARM_2 => { m.hw.stat with alrm_2_act := false }) := by
  obtain ⟨hw, img, tr, fl, sy⟩ := m
  obtain ⟨rtc, a1, a2, c, ⟨s1, s2, s3, s4, s5⟩⟩ := hw
  cases n <;> cases s1 <;> cases s2 <;>
    simp [reset_alarm, read_stat_, write_stat_snd_trace, write_stat_snd_img]

/-- Claim C9: for every set_alarm call (group reads succeeding on the wire),
the control image that may be written differs from the byte just read only
in the targeted alarm's interrupt-enable bit, the targeted alarm register
group is written unconditionally, and the control register is written only
when that interrupt-enable bit differs from the value just read: the trace
gains exactly control-read, alarm-read, alarm-write, plus a control-write
exactly when the bit differs. -/
theorem C9_set_alarm_frame (ok : BusOk) (alarm_type second minute hour day : Nat) (m : Machine) :
    let r := set_alarm { ok with ctrlR := true, a1R := true, a2R := true }
      alarm_type second minute hour day m
    let en := cppBool (alarm_type &&& DS3231_ALARM_TYPE_INTERUPT)
    if alarm_type &&& DS3231_ALARM_TYPE_ALARM_NUMBER = 0 then
      (if m.hw.ctrl.alrm_1_int = en then
        r.trace = m.trace ++ [⟨BusDir.read, DS3231_CONTROL_ADDRESS, 1⟩,
          ⟨BusDir.read, DS3231_ALARM_1_ADDRESS, 4⟩, ⟨BusDir.write, DS3231_ALARM_1_ADDRESS, 4⟩]
        ∧ r.img.ctrl = m.hw.ctrl
      else
        r.trace = m.trace ++ [⟨BusDir.read, DS3231_CONTROL_ADDRESS, 1⟩,
          ⟨BusDir.read, DS3231_ALARM_1_ADDRESS, 4⟩, ⟨BusDir.write, DS3231_ALARM_1_ADDRESS, 4⟩,
          ⟨BusDir.write, DS3231_CONTROL_ADDRESS, 1⟩]
        ∧ r.img.ctrl = { m.hw.ctrl with alrm_1_int := en })
    else
      (if m.hw.ctrl.alrm_2_int = en then
        r.trace = m.trace ++ [⟨BusDir.read, DS3231_CONTROL_ADDRESS, 1⟩,
          ⟨BusDir.read, DS3231_ALARM_1_ADDRESS, 3⟩, ⟨BusDir.write, DS3231_ALARM_1_ADDRESS, 3⟩]
        ∧ r.img.ctrl = m.hw.ctrl
      else
        r.trace = m.trace ++ [⟨BusDir.read, DS3231_CONTROL_ADDRESS, 1⟩,
          ⟨BusDir.read, DS3231_ALARM_1_ADDRESS, 3⟩, ⟨BusDir.write, DS3231_ALARM_1_ADDRESS, 3⟩,
          ⟨BusDir.write, DS3231_CONTROL_ADDRESS, 1⟩]
        ∧ r.img.ctrl = { m.hw.ctrl with alrm_2_int := en }) := by
  obtain ⟨hw, img, tr, fl, sy⟩ := m
  by_cases h1 : alarm_type &&& DS3231_ALARM_TYPE_ALARM_NUMBER = 0
  · by_cases h2 : hw.ctrl.alrm_1_int = cppBool (alarm_type &&& DS3231_ALARM_TYPE_INTERUPT) <;>
      simp [set_alarm, read_ctrl_, read_alrm_1_, h1, h2, write_alrm_1_snd_trace,
        write_alrm_1_snd_img, write_ctrl_snd_trace, write_ctrl_snd_img]
  · by_cases h2 : hw.ctrl.alrm_2_int = cppBool (alarm_type &&& DS3231_ALARM_TYPE_INTERUPT) <;>
      simp [set_alarm, read_ctrl_, read_alrm_2_, h1, h2, write_alrm_2_snd_trace,
        write_alrm_2_snd_img, write_ctrl_snd_trace, write_ctrl_snd_img]

/-- Alarm selector used by the C10 example: match bits M2, M3, M4 set, M1
clear, day-mode clear (date / day-of-month), interrupt enabled, alarm-number
bit clear (alarm 1). -/
def atEx : Nat :=
  DS3231_ALARM_TYPE_M2 ||| DS3231_ALARM_TYPE_M3 ||| DS3231_ALARM_TYPE_M4 |||
    DS3231_ALARM_TYPE_INTERUPT

/-- Claim C10: from any initial state (reliable bus), set_alarm for alarm 1
with second=30, minute=15, hour=8, day=1, match bits M2, M3, M4, day-mode =
date and interrupt enabled produces an alarm-1 mirror that decodes back to
exactly those fields with M1 clear and day-mode = date, writes those bytes
to the hardware alarm-1 group, and leaves the hardware control register's
alarm-1 interrupt-enable bit set. -/
theorem C10_set_alarm_example (m : Machine) :
    let r := set_alarm okAll atEx 30 15 8 1 m
    r.img.alrm_1.second + 10 * r.img.alrm_1.second_10 = 30
    ∧ r.img.alrm_1.minute + 10 * r.img.alrm_1.minute_10 = 15
    ∧ r.img.alrm_1.hour + 10 * r.img.alrm_1.hour_10 = 8
    ∧ r.img.alrm_1.day + 10 * r.img.alrm_1.day_10 = 1
    ∧ r.img.alrm_1.m1 = false ∧ r.img.alrm_1.m2 = true
    ∧ r.img.alrm_1.m3 = true ∧ r.img.alrm_1.m4 = true
    ∧ r.img.alrm_1.day_mode = false
    ∧ r.hw.alrm_1 = r.img.alrm_1
    ∧ r.hw.ctrl.alrm_1_int = true := by
  have h1 : atEx &&& DS3231_ALARM_TYPE_ALARM_NUMBER = 0 := by decide
  have h2 : cppBool (atEx &&& DS3231_ALARM_TYPE_INTERUPT) = true := by decide
  have h3 : cppBool (atEx &&& DS3231_ALARM_TYPE_M1) = false := by decide
  have h4 : cppBool (atEx &&& DS3231_ALARM_TYPE_M2) = true := by decide
  have h5 : cppBool (atEx &&& DS3231_ALARM_TYPE_M3) = true := by decide
  have h6 : cppBool (atEx &&& DS3231_ALARM_TYPE_M4) = true := by decide
  have h7 : cppBool (atEx &&& DS3231_ALARM_TYPE_DAY_MODE) = false := by decide
  obtain ⟨hw, img, tr, fl, sy⟩ := m
  by_cases h : hw.ctrl.alrm_1_int = true <;>
    simp [set_alarm, read_ctrl_, read_alrm_1_, write_alrm_1_, write_ctrl_, okAll,
      h1, h2, h3, h4, h5, h6, h7, h]

end DS3231
